import Mathlib

/-!
Verification of the `oci_data_access` notebook (`src/book/src/oci/oci_data_access.py`).

The notebook is sequential glue over the external `earthaccess` library: it logs in
(`earthaccess.login(persist=True)`), discovers collections (`search_datasets`),
searches for granules (`search_data` with `short_name`, `temporal`, `bounding_box`,
`cloud_cover`, `count` filters), and retrieves granules (`open`, `download`).
The `earthaccess` operations themselves are not part of the repository, so they are
modelled here from the specification; the notebook script itself (its concrete filter
values, its sequencing and its unguarded indexing of result lists) is embedded from
the source.  Dates are encoded as `Nat` in `yyyymmdd` form, and geographic
coordinates as `Int` in hundredths of a degree, so that every definition is
executable and decidable.
-/

namespace OciDataAccess

/-- Modelled from the spec: Earthdata Login credentials, a username/password pair
(spec §3 "Credentials"). -/
structure Credentials where
  username : String
  password : String
deriving DecidableEq, Repr

/-- Modelled from the spec: an opaque authenticated session created by the Session
Authenticator from resolved credentials (spec §3 "Session"). -/
structure Session where
  creds : Credentials
deriving DecidableEq, Repr

/-- Modelled from the spec: the persistent credential store — the local credentials
file (conventionally `.netrc`) that the Credential Resolver reads and, when `persist`
is requested, writes (spec §4.1, §6 "Credentials file"). -/
structure AuthState where
  credFile : Option Credentials
deriving DecidableEq, Repr

/-- Modelled from the spec: the error raised when no credentials can be resolved or
authentication fails (spec §7 "AuthenticationError"). -/
inductive AuthError where
  | authenticationError
deriving DecidableEq, Repr

/-- Modelled from the spec: the Credential Resolver's ordered chain — environment
variables, then the credentials file, then the interactive prompt (spec §4.1, §9). -/
def resolveCredentials (env : Option Credentials) (st : AuthState)
    (interactive : Option Credentials) : Option Credentials :=
  (env.orElse fun _ => st.credFile).orElse fun _ => interactive

/-- Modelled from the spec: `earthaccess.login(persist=...)` — resolves credentials,
authenticates a session, and, exactly when `persist` is true, writes the resolved
credentials to the credentials file (spec §4.1, §4.2; notebook line 117). -/
def login (persist : Bool) (env : Option Credentials) (st : AuthState)
    (interactive : Option Credentials) : Except AuthError (Session × AuthState) :=
  match resolveCredentials env st interactive with
  | none => Except.error AuthError.authenticationError
  | some c => Except.ok (⟨c⟩, if persist then ⟨some c⟩ else st)

/-- Modelled from the spec: a collection descriptor as returned by
`search_datasets`, carrying a short name, the instrument, and further summary
entries (spec §3 "Granule Descriptor"; notebook lines 128-132). -/
structure Collection where
  shortName : String
  instrument : String
  extraSummary : List (String × String)
deriving DecidableEq, Repr

/-- Modelled from the spec: the `summary()` method of a collection descriptor; the
record it yields always carries the "short-name" entry used by the notebook's loop
(notebook lines 130-132). -/
def Collection.summary (c : Collection) : List (String × String) :=
  ("short-name", c.shortName) :: c.extraSummary

/-- Modelled from the spec: `earthaccess.search_datasets(instrument=...)` — returns
the collections of the catalog whose instrument matches the filter (spec §4.3;
notebook line 128). -/
def search_datasets (collections : List Collection) (instrument : String) :
    List Collection :=
  collections.filter fun c => c.instrument == instrument

/-- Modelled from the spec: a granule descriptor — one discoverable data unit with
its catalog metadata: short name, instrument, acquisition date (`yyyymmdd`),
geographic footprint (west/south/east/north in hundredths of a degree), cloud-cover
percentage, file name and file size (spec §3 "Granule Descriptor"). -/
structure Granule where
  shortName : String
  instrument : String
  time : Nat
  west : Int
  south : Int
  east : Int
  north : Int
  cloudCover : Int
  fileName : String
  size : Nat
deriving DecidableEq, Repr

/-- Modelled from the spec: a Search Filter — an immutable record of optional
constraints; absent fields mean "unconstrained" (spec §3 "Search Filter"). -/
structure SearchFilter where
  instrument : Option String := none
  short_name : Option String := none
  temporal : Option (Nat × Nat) := none
  bounding_box : Option (Int × Int × Int × Int) := none
  cloud_cover : Option (Int × Int) := none
  count : Option Nat := none
deriving DecidableEq, Repr

/-- Whether a granule satisfies the filter's instrument constraint. -/
def matchesInstrument (f : SearchFilter) (g : Granule) : Bool :=
  match f.instrument with
  | none => true
  | some i => g.instrument == i

/-- Whether a granule satisfies the filter's short-name constraint. -/
def matchesShortName (f : SearchFilter) (g : Granule) : Bool :=
  match f.short_name with
  | none => true
  | some s => g.shortName == s

/-- Whether a granule's acquisition date lies in the filter's temporal range. -/
def matchesTemporal (f : SearchFilter) (g : Granule) : Bool :=
  match f.temporal with
  | none => true
  | some (a, b) => decide (a ≤ g.time) && decide (g.time ≤ b)

/-- Whether a granule's footprint intersects the filter's bounding box. -/
def matchesBoundingBox (f : SearchFilter) (g : Granule) : Bool :=
  match f.bounding_box with
  | none => true
  | some (w, s, e, n) =>
    decide (g.west ≤ e) && decide (w ≤ g.east) &&
    decide (g.south ≤ n) && decide (s ≤ g.north)

/-- Whether a granule's cloud cover lies in the filter's cloud-cover range. -/
def matchesCloudCover (f : SearchFilter) (g : Granule) : Bool :=
  match f.cloud_cover with
  | none => true
  | some (lo, hi) => decide (lo ≤ g.cloudCover) && decide (g.cloudCover ≤ hi)

/-- Modelled from the spec: a granule matches a Search Filter when it satisfies
every specified constraint — logical AND across filters (spec §4.3). -/
def matchesGranule (f : SearchFilter) (g : Granule) : Bool :=
  matchesInstrument f g && matchesShortName f g && matchesTemporal f g &&
  matchesBoundingBox f g && matchesCloudCover f g

/-- Modelled from the spec: validity of a Search Filter — each specified range is
well-formed (spec §4.3 "malformed filter values (e.g., invalid date range)"). -/
def filterValid (f : SearchFilter) : Bool :=
  (match f.temporal with
   | none => true
   | some (a, b) => decide (a ≤ b)) &&
  (match f.bounding_box with
   | none => true
   | some (w, s, e, n) => decide (w ≤ e) && decide (s ≤ n)) &&
  (match f.cloud_cover with
   | none => true
   | some (lo, hi) => decide (lo ≤ hi))

/-- Modelled from the spec: the error raised on a malformed Search Filter
(spec §7 "SearchError"). -/
inductive SearchError where
  | malformedFilter
deriving DecidableEq, Repr

/-- Modelled from the spec: apply the optional `count` limit — truncate to at most
`count` entries when set, keep everything when unset (spec §4.3). -/
def applyCount (c : Option Nat) (l : List Granule) : List Granule :=
  match c with
  | none => l
  | some n => l.take n

/-- Modelled from the spec: `earthaccess.search_data(filter)` — on a valid filter,
returns the ordered subsequence of catalog granules satisfying every specified
constraint, truncated by `count` when set; on a malformed filter, fails with
SearchError (spec §4.3; notebook lines 148-151, 165-170, 193-198). -/
def search_data (catalog : List Granule) (f : SearchFilter) :
    Except SearchError (List Granule) :=
  if filterValid f then
    Except.ok (applyCount f.count (catalog.filter (matchesGranule f)))
  else
    Except.error SearchError.malformedFilter

/-- Modelled from the spec: a remote-backed readable handle derived from one
granule descriptor (spec §3 "Retrieval Result"). -/
structure RemoteHandle where
  granule : Granule
deriving DecidableEq, Repr

/-- Modelled from the spec: `earthaccess.open(descriptors)` — a same-length sequence
of remote-backed handles, one per descriptor, preserving input order, consuming no
local disk space (spec §4.4; notebook line 204). -/
def open_ (descriptors : List Granule) : List RemoteHandle :=
  descriptors.map fun g => ⟨g⟩

/-- Modelled from the spec: one file on the local filesystem — its path, its size
and whether its content is complete (spec §4.4, §5). -/
structure FSFile where
  path : String
  size : Nat
  complete : Bool
deriving DecidableEq, Repr

/-- The local filesystem under the download directory, as a list of files. -/
abbrev FileSystem := List FSFile

/-- Modelled from the spec: the catalog-derived local path of a granule under the
target directory (spec §6 "Local filesystem"). -/
def targetPath (local_path : String) (g : Granule) : String :=
  local_path ++ "/" ++ g.fileName

/-- Look a path up in the filesystem. -/
def fsLookup (fs : FileSystem) (p : String) : Option FSFile :=
  fs.find? fun f => f.path == p

/-- Whether the filesystem holds a complete file at the given path. -/
def fsCompleteAt (fs : FileSystem) (p : String) : Bool :=
  match fsLookup fs p with
  | some f => f.complete
  | none => false

/-- Write a complete file of the given size at the given path, replacing the
existing entry at that path when there is one and appending otherwise. -/
def writeFile (fs : FileSystem) (p : String) (sz : Nat) : FileSystem :=
  match fs with
  | [] => [⟨p, sz, true⟩]
  | f :: rest => if f.path == p then ⟨p, sz, true⟩ :: rest else f :: writeFile rest p sz

/-- Modelled from the spec: download one granule — if a complete file already exists
at the target path the download is skipped, otherwise the full content is written
(spec §4.4 "idempotent download"). Returns the updated filesystem and the local
path. -/
def downloadOne (fs : FileSystem) (local_path : String) (g : Granule) :
    FileSystem × String :=
  let p := targetPath local_path g
  match fsLookup fs p with
  | some f => if f.complete then (fs, p) else (writeFile fs p g.size, p)
  | none => (writeFile fs p g.size, p)

/-- Modelled from the spec: `earthaccess.download(descriptors, local_path)` —
downloads each granule in order into the target directory and returns the updated
filesystem together with the same-length, order-preserving sequence of local file
paths (spec §4.4; notebook line 238). -/
def download (fs : FileSystem) (descriptors : List Granule) (local_path : String) :
    FileSystem × List String :=
  match descriptors with
  | [] => (fs, [])
  | g :: rest =>
    let r1 := downloadOne fs local_path g
    let r2 := download r1.1 rest local_path
    (r2.1, r1.2 :: r2.2)

/-- Search client stage with explicit session threading: `search_datasets` takes the
authenticated session read-only and returns it untouched alongside its result. -/
def search_datasets_auth (s : Session) (collections : List Collection)
    (instrument : String) : Session × List Collection :=
  (s, search_datasets collections instrument)

/-- Search client stage with explicit session threading: `search_data` takes the
authenticated session read-only and returns it untouched alongside its result. -/
def search_data_auth (s : Session) (catalog : List Granule) (f : SearchFilter) :
    Session × Except SearchError (List Granule) :=
  (s, search_data catalog f)

/-- Retrieval client stage with explicit session threading: `open` takes the
authenticated session read-only and returns it untouched alongside its result. -/
def open_auth (s : Session) (descriptors : List Granule) :
    Session × List RemoteHandle :=
  (s, open_ descriptors)

/-- Retrieval client stage with explicit session threading: `download` takes the
authenticated session read-only and returns it untouched alongside its result. -/
def download_auth (s : Session) (fs : FileSystem) (descriptors : List Granule)
    (local_path : String) : Session × (FileSystem × List String) :=
  (s, download fs descriptors local_path)

/-- The notebook's `tspan = ("2024-05-01", "2024-05-16")`, dates as `yyyymmdd`
(notebook line 161). -/
def tspan : Nat × Nat := (20240501, 20240516)

/-- The notebook's `bbox = (-76.75, 36.97, -75.74, 39.01)`, in hundredths of a
degree (notebook line 162). -/
def bbox : Int × Int × Int × Int := (-7675, 3697, -7574, 3901)

/-- The notebook's `clouds = (0, 50)` (notebook line 163). -/
def clouds : Int × Int := (0, 50)

/-- The notebook's first granule search:
`search_data(short_name="PACE_OCI_L2_BGC_NRT", count=1)` (notebook lines 148-151). -/
def filterCount1 : SearchFilter :=
  { short_name := some "PACE_OCI_L2_BGC_NRT", count := some 1 }

/-- The notebook's constrained granule search, with no `count`
(notebook lines 165-170). -/
def filterConstrained : SearchFilter :=
  { short_name := some "PACE_OCI_L2_BGC_NRT", temporal := some tspan,
    bounding_box := some bbox, cloud_cover := some clouds }

/-- The notebook's Level-1B granule search with `count=2`
(notebook lines 193-198). -/
def filterL1B : SearchFilter :=
  { short_name := some "PACE_OCI_L1B_SCI", temporal := some tspan,
    bounding_box := some bbox, count := some 2 }

/-- The ambient world the notebook runs against: credential sources, the remote
catalog of collections and granules, and the local filesystem. -/
structure World where
  env : Option Credentials
  interactive : Option Credentials
  authState : AuthState
  collections : List Collection
  catalog : List Granule
  fs : FileSystem
deriving Repr

/-- Everything a successful run of the notebook produced: the session created by
`login`, the session value each later stage consumed (in stage order), the results
of the three granule searches, the handles from `open`, and the filesystem and
paths from `download`. -/
structure ScriptResult where
  session : Session
  stageSessions : List Session
  collections : List Collection
  bgcCount1 : List Granule
  bgcConstrained : List Granule
  l1b : List Granule
  handles : List RemoteHandle
  finalFs : FileSystem
  downloadPaths : List String
deriving Repr

/-- An error surfaced by a run of the notebook. -/
inductive ScriptError where
  | auth (e : AuthError)
  | search (e : SearchError)
deriving DecidableEq, Repr

/-- The notebook's pipeline, embedded from the source: `login(persist=True)`, then
`search_datasets(instrument="oci")`, then the three `search_data` calls, then
`open` and `download` on the Level-1B results — each stage consuming the session
produced by the authenticator (notebook lines 117-238). -/
def runScript (w : World) : Except ScriptError ScriptResult :=
  match login true w.env w.authState w.interactive with
  | Except.error e => Except.error (ScriptError.auth e)
  | Except.ok (s, _) =>
    let step1 := search_datasets_auth s w.collections "oci"
    let step2 := search_data_auth step1.1 w.catalog filterCount1
    match step2.2 with
    | Except.error e => Except.error (ScriptError.search e)
    | Except.ok r1 =>
      let step3 := search_data_auth step2.1 w.catalog filterConstrained
      match step3.2 with
      | Except.error e => Except.error (ScriptError.search e)
      | Except.ok r2 =>
        let step4 := search_data_auth step3.1 w.catalog filterL1B
        match step4.2 with
        | Except.error e => Except.error (ScriptError.search e)
        | Except.ok r3 =>
          let step5 := open_auth step4.1 r3
          let step6 := download_auth step5.1 w.fs r3 "L1B"
          Except.ok
            { session := s
              stageSessions := [s, step1.1, step2.1, step3.1, step4.1, step5.1]
              collections := step1.2
              bgcCount1 := r1
              bgcConstrained := r2
              l1b := r3
              handles := step5.2
              finalFs := step6.2.1
              downloadPaths := step6.2.2 }

/-- The notebook run including its unguarded list indexing: after the constrained
search it evaluates `results[0]`, `results[1]`, `results[2]` (notebook lines
181-185), and after `earthaccess.open` it evaluates `paths[0]` (notebook lines
210-212).  Returns `none` when authentication, a search, or an index access
fails. -/
def runNotebook (w : World) : Option (List String) :=
  match login true w.env w.authState w.interactive with
  | Except.error _ => none
  | Except.ok (s, _) =>
    let _cols := (search_datasets_auth s w.collections "oci").2
    match search_data w.catalog filterCount1 with
    | Except.error _ => none
    | Except.ok _r1 =>
      match search_data w.catalog filterConstrained with
      | Except.error _ => none
      | Except.ok r2 =>
        match r2.get? 0, r2.get? 1, r2.get? 2 with
        | some _, some _, some _ =>
          match search_data w.catalog filterL1B with
          | Except.error _ => none
          | Except.ok r3 =>
            let paths := open_ r3
            match paths.get? 0 with
            | some _ => some (download w.fs r3 "L1B").2
            | none => none
        | _, _, _ => none

/-- Sample credentials, for evaluating the model on concrete inputs. -/
def sampleCreds : Credentials := ⟨"user", "password"⟩

/-- The session authenticated from the sample credentials. -/
def sampleSession : Session := ⟨sampleCreds⟩

/-- A sample world: credentials in the environment, no credentials file, empty
catalog and filesystem. -/
def sampleWorld : World :=
  { env := some sampleCreds, interactive := none, authState := ⟨none⟩,
    collections := [], catalog := [], fs := [] }

/-- What `runScript` produces on `sampleWorld`. -/
def sampleResult : ScriptResult :=
  { session := sampleSession
    stageSessions := [sampleSession, sampleSession, sampleSession, sampleSession,
      sampleSession, sampleSession]
    collections := []
    bgcCount1 := []
    bgcConstrained := []
    l1b := []
    handles := []
    finalFs := []
    downloadPaths := [] }

/-- A sample OCI biogeochemistry granule whose metadata satisfies all of the
notebook's constrained-search filters. -/
def gBGC : Granule :=
  { shortName := "PACE_OCI_L2_BGC_NRT", instrument := "oci", time := 20240505,
    west := -7700, south := 3650, east := -7500, north := 3950,
    cloudCover := 10, fileName := "bgc1.nc", size := 100 }

/-- A sample granule from an unrelated collection: it matches none of the
notebook's short-name filters. -/
def gOther : Granule :=
  { shortName := "OTHER_PRODUCT", instrument := "modis", time := 20230101,
    west := 0, south := 0, east := 100, north := 100,
    cloudCover := 90, fileName := "other.nc", size := 5 }

/-- A sample OCI collection descriptor. -/
def sampleCollection : Collection :=
  { shortName := "PACE_OCI_L2_BGC_NRT", instrument := "oci", extraSummary := [] }

/-! ## Helper lemmas about the filesystem and `download` -/

theorem fsLookup_nil (p : String) : fsLookup [] p = none := rfl

theorem fsLookup_writeFile_self (fs : FileSystem) (p : String) (sz : Nat) :
    fsLookup (writeFile fs p sz) p = some ⟨p, sz, true⟩ := by
  induction fs with
  | nil => simp [writeFile, fsLookup, List.find?]
  | cons f rest ih =>
    by_cases h : f.path = p
    · simp [writeFile, h, fsLookup, List.find?]
    · have hb : (f.path == p) = false := by simp [h]
      simp only [writeFile, hb, Bool.false_eq_true, if_false]
      simpa [fsLookup, List.find?, hb] using ih

theorem fsLookup_writeFile_ne (fs : FileSystem) (p q : String) (sz : Nat)
    (hq : q ≠ p) : fsLookup (writeFile fs p sz) q = fsLookup fs q := by
  have hpq : (p == q) = false := beq_eq_false_iff_ne.mpr (Ne.symm hq)
  induction fs with
  | nil => simp [writeFile, fsLookup, List.find?, hpq]
  | cons f rest ih =>
    by_cases h : f.path = p
    · have hfq : (f.path == q) = false := by simp [h, Ne.symm hq]
      simp [writeFile, h, fsLookup, List.find?, hfq, hpq]
    · have hb : (f.path == p) = false := by simp [h]
      by_cases h2 : f.path = q
      · simp [writeFile, hb, fsLookup, List.find?, h2, hq]
      · have hfq : (f.path == q) = false := by simp [h2]
        simp only [writeFile, hb, Bool.false_eq_true, if_false]
        simpa [fsLookup, List.find?, hfq] using ih

theorem fsCompleteAt_writeFile (fs : FileSystem) (p q : String) (sz : Nat)
    (h : fsCompleteAt fs q = true) : fsCompleteAt (writeFile fs p sz) q = true := by
  by_cases hq : q = p
  · subst hq
    simp [fsCompleteAt, fsLookup_writeFile_self]
  · simpa [fsCompleteAt, fsLookup_writeFile_ne fs p q sz hq] using h

theorem downloadOne_snd (fs : FileSystem) (lp : String) (g : Granule) :
    (downloadOne fs lp g).2 = targetPath lp g := by
  cases h : fsLookup fs (targetPath lp g) with
  | none => simp [downloadOne, h]
  | some f => by_cases hc : f.complete = true <;> simp [downloadOne, h, hc]

theorem downloadOne_fst (fs : FileSystem) (lp : String) (g : Granule) :
    (downloadOne fs lp g).1 =
      match fsLookup fs (targetPath lp g) with
      | some f =>
        if f.complete then fs else writeFile fs (targetPath lp g) g.size
      | none => writeFile fs (targetPath lp g) g.size := by
  cases h : fsLookup fs (targetPath lp g) with
  | none => simp [downloadOne, h]
  | some f => by_cases hc : f.complete = true <;> simp [downloadOne, h, hc]

theorem downloadOne_target_complete (fs : FileSystem) (lp : String) (g : Granule) :
    fsCompleteAt (downloadOne fs lp g).1 (targetPath lp g) = true := by
  rw [downloadOne_fst]
  cases h : fsLookup fs (targetPath lp g) with
  | none => simp [fsCompleteAt, fsLookup_writeFile_self]
  | some f =>
    by_cases hc : f.complete = true
    · simp [hc, fsCompleteAt, h]
    · simp [hc, fsCompleteAt, fsLookup_writeFile_self]

theorem downloadOne_mono (fs : FileSystem) (lp : String) (g : Granule) (q : String)
    (h : fsCompleteAt fs q = true) :
    fsCompleteAt (downloadOne fs lp g).1 q = true := by
  rw [downloadOne_fst]
  cases hl : fsLookup fs (targetPath lp g) with
  | none => exact fsCompleteAt_writeFile _ _ _ _ h
  | some f =>
    by_cases hc : f.complete = true
    · simpa [hc] using h
    · simp only [hc, Bool.false_eq_true, if_false]
      exact fsCompleteAt_writeFile _ _ _ _ h

theorem downloadOne_of_complete (fs : FileSystem) (lp : String) (g : Granule)
    (h : fsCompleteAt fs (targetPath lp g) = true) :
    downloadOne fs lp g = (fs, targetPath lp g) := by
  unfold fsCompleteAt at h
  cases hl : fsLookup fs (targetPath lp g) with
  | none => simp [hl] at h
  | some f =>
    rw [hl] at h
    simp only [] at h
    simp [downloadOne, hl, h]

theorem download_snd (fs : FileSystem) (D : List Granule) (lp : String) :
    (download fs D lp).2 = D.map (targetPath lp) := by
  induction D generalizing fs with
  | nil => rfl
  | cons g rest ih =>
    simp [download, downloadOne_snd, ih]

theorem download_mono (fs : FileSystem) (D : List Granule) (lp : String)
    (q : String) (h : fsCompleteAt fs q = true) :
    fsCompleteAt (download fs D lp).1 q = true := by
  induction D generalizing fs with
  | nil => exact h
  | cons g rest ih =>
    simp only [download]
    exact ih _ (downloadOne_mono fs lp g q h)

theorem download_targets_complete (fs : FileSystem) (D : List Granule)
    (lp : String) : ∀ g ∈ D, fsCompleteAt (download fs D lp).1 (targetPath lp g) = true := by
  induction D generalizing fs with
  | nil => intro g hg; cases hg
  | cons g0 rest ih =>
    intro g hg
    simp only [download]
    rcases List.mem_cons.mp hg with hg | hg
    · subst hg
      exact download_mono _ rest lp _ (downloadOne_target_complete fs lp g)
    · exact ih _ g hg

theorem download_of_complete (fs : FileSystem) (D : List Granule) (lp : String)
    (h : ∀ g ∈ D, fsCompleteAt fs (targetPath lp g) = true) :
    download fs D lp = (fs, D.map (targetPath lp)) := by
  induction D generalizing fs with
  | nil => rfl
  | cons g rest ih =>
    have hg := h g (List.mem_cons_self g rest)
    have hrest : ∀ x ∈ rest, fsCompleteAt fs (targetPath lp x) = true :=
      fun x hx => h x (List.mem_cons_of_mem g hx)
    simp [download, downloadOne_of_complete fs lp g hg, ih fs hrest]

/-! ## Helper lemmas about `search_data` -/

theorem search_data_valid (catalog : List Granule) (f : SearchFilter)
    (hv : filterValid f = true) :
    search_data catalog f =
      Except.ok (applyCount f.count (catalog.filter (matchesGranule f))) := by
  simp [search_data, hv]

theorem search_data_filterCount1_eq (c : List Granule) :
    search_data c filterCount1 =
      Except.ok ((c.filter (matchesGranule filterCount1)).take 1) := by
  rw [search_data_valid c filterCount1 (by decide)]
  rfl

theorem search_data_filterConstrained_eq (c : List Granule) :
    search_data c filterConstrained =
      Except.ok (c.filter (matchesGranule filterConstrained)) := by
  rw [search_data_valid c filterConstrained (by decide)]
  rfl

theorem search_data_filterL1B_eq (c : List Granule) :
    search_data c filterL1B =
      Except.ok ((c.filter (matchesGranule filterL1B)).take 2) := by
  rw [search_data_valid c filterL1B (by decide)]
  rfl

/-! ## The claims -/

/-- C1: for every descriptor sequence `D`, `open(D)` and `download(D, path)` each
return a sequence of exactly `D`'s length, with the element at every position
derived from the descriptor at that same position, preserving input order. -/
theorem open_download_one_to_one (D : List Granule) (fs : FileSystem) (lp : String) :
    (open_ D).length = D.length ∧
    ((download fs D lp).2).length = D.length ∧
    (∀ i : Nat, (open_ D)[i]? = (D[i]?).map fun g => RemoteHandle.mk g) ∧
    (∀ i : Nat, ((download fs D lp).2)[i]? = (D[i]?).map (targetPath lp)) := by
  refine ⟨by simp [open_], ?_, ?_, ?_⟩
  · rw [download_snd]; simp
  · intro i; exact List.getElem?_map _ _ _
  · intro i; rw [download_snd]; exact List.getElem?_map _ _ _

/-- C2: on a valid Search Filter, `search_data` returns the matching granules of
the catalog; when `count = N` is set the returned sequence has length at most `N`,
and when `count` is unset all matching granules are returned. -/
theorem search_data_count_spec (catalog : List Granule) (f : SearchFilter)
    (hv : filterValid f = true) :
    search_data catalog f =
      Except.ok (applyCount f.count (catalog.filter (matchesGranule f))) ∧
    (∀ n, f.count = some n →
      (applyCount f.count (catalog.filter (matchesGranule f))).length ≤ n) ∧
    (f.count = none →
      applyCount f.count (catalog.filter (matchesGranule f)) =
        catalog.filter (matchesGranule f)) := by
  refine ⟨search_data_valid catalog f hv, ?_, ?_⟩
  · intro n hn
    simp only [applyCount, hn]
    exact List.length_take_le n (catalog.filter (matchesGranule f))
  · intro hn
    simp [applyCount, hn]

/-- Witness for C2 at the notebook's `count=1` filter over a one-granule
catalog. -/
theorem search_data_count_spec_witness :
    search_data [gBGC] filterCount1 =
      Except.ok (applyCount filterCount1.count
        ([gBGC].filter (matchesGranule filterCount1))) ∧
    (applyCount filterCount1.count
      ([gBGC].filter (matchesGranule filterCount1))).length ≤ 1 :=
  ⟨(search_data_count_spec [gBGC] filterCount1 (by decide)).1,
   (search_data_count_spec [gBGC] filterCount1 (by decide)).2.1 1 rfl⟩

/-- C3: on a valid Search Filter matching zero catalog granules, `search_data`
returns the empty sequence, not an error. -/
theorem search_data_zero_matches (catalog : List Granule) (f : SearchFilter)
    (hv : filterValid f = true)
    (h : ∀ g ∈ catalog, matchesGranule f g = false) :
    search_data catalog f = Except.ok [] := by
  have hnil : catalog.filter (matchesGranule f) = [] :=
    List.filter_eq_nil_iff.mpr (by intro a ha; simp [h a ha])
  rw [search_data_valid catalog f hv, hnil]
  cases hc : f.count <;> simp [applyCount]

/-- Witness for C3: the constrained search over a catalog holding only a granule
of another collection returns the empty sequence. -/
theorem search_data_zero_matches_witness :
    search_data [gOther] filterConstrained = Except.ok [] :=
  search_data_zero_matches [gOther] filterConstrained (by decide)
    (by intro g hg; simp only [List.mem_singleton] at hg; subst hg; decide)

/-- C4: downloading the same descriptor sequence twice into the same directory
yields the same path sequence both times, and the second call leaves the
filesystem untouched — completed files are neither re-downloaded nor
duplicated. -/
theorem download_idempotent (fs : FileSystem) (D : List Granule) (lp : String) :
    download (download fs D lp).1 D lp =
      ((download fs D lp).1, (download fs D lp).2) := by
  rw [download_of_complete _ D lp (download_targets_complete fs D lp), download_snd]

/-- C5: every granule returned by `search_data` comes from the catalog and
satisfies each specified constraint — short name, temporal range, bounding box
and cloud cover combine by logical AND. -/
theorem search_data_filters_and (catalog : List Granule) (f : SearchFilter)
    (l : List Granule) (h : search_data catalog f = Except.ok l) :
    ∀ g ∈ l, g ∈ catalog ∧ matchesInstrument f g = true ∧
      matchesShortName f g = true ∧ matchesTemporal f g = true ∧
      matchesBoundingBox f g = true ∧ matchesCloudCover f g = true := by
  intro g hg
  unfold search_data at h
  by_cases hv : filterValid f = true
  · rw [if_pos hv] at h
    injection h with h
    subst h
    have hg2 : g ∈ catalog.filter (matchesGranule f) := by
      cases hc : f.count with
      | none => simpa [applyCount, hc] using hg
      | some n =>
        simp only [applyCount, hc] at hg
        exact List.take_subset n _ hg
    have hmem := List.mem_filter.mp hg2
    refine ⟨hmem.1, ?_⟩
    have hm := hmem.2
    unfold matchesGranule at hm
    simp only [Bool.and_eq_true] at hm
    exact ⟨hm.1.1.1.1, hm.1.1.1.2, hm.1.1.2, hm.1.2, hm.2⟩
  · rw [if_neg hv] at h
    exact absurd h (by simp)

/-- Witness for C5 at the notebook's constrained filter: the returned sample
granule satisfies all four constraints simultaneously. -/
theorem search_data_filters_and_witness :
    gBGC ∈ [gBGC] ∧ matchesInstrument filterConstrained gBGC = true ∧
    matchesShortName filterConstrained gBGC = true ∧
    matchesTemporal filterConstrained gBGC = true ∧
    matchesBoundingBox filterConstrained gBGC = true ∧
    matchesCloudCover filterConstrained gBGC = true :=
  search_data_filters_and [gBGC] filterConstrained [gBGC] rfl gBGC
    (by simp)

/-- C6: when the catalog holds at least one granule of the
"PACE_OCI_L2_BGC_NRT" collection, the notebook's `count=1` search returns
exactly one descriptor. -/
theorem search_data_count1_exactly_one (catalog : List Granule)
    (h : ∃ g ∈ catalog, g.shortName = "PACE_OCI_L2_BGC_NRT") :
    search_data catalog filterCount1 =
      Except.ok ((catalog.filter (matchesGranule filterCount1)).take 1) ∧
    ((catalog.filter (matchesGranule filterCount1)).take 1).length = 1 := by
  refine ⟨search_data_filterCount1_eq catalog, ?_⟩
  obtain ⟨g, hg, hs⟩ := h
  have hmem : g ∈ catalog.filter (matchesGranule filterCount1) :=
    List.mem_filter.mpr ⟨hg, by
      simp [matchesGranule, matchesInstrument, matchesShortName, matchesTemporal,
        matchesBoundingBox, matchesCloudCover, filterCount1, hs]⟩
  have hpos : 0 < (catalog.filter (matchesGranule filterCount1)).length :=
    List.length_pos.mpr (List.ne_nil_of_mem hmem)
  rw [List.length_take]
  omega

/-- Witness for C6 over a one-granule catalog of the right collection. -/
theorem search_data_count1_exactly_one_witness :
    search_data [gBGC] filterCount1 =
      Except.ok (([gBGC].filter (matchesGranule filterCount1)).take 1) ∧
    (([gBGC].filter (matchesGranule filterCount1)).take 1).length = 1 :=
  search_data_count1_exactly_one [gBGC] ⟨gBGC, by simp, rfl⟩

/-- C7: the `persist` option of `login` controls exactly the one persistence
side effect — with `persist` true the resolved credentials are written to the
credentials file, and with `persist` false the credentials file state is left
exactly as it was. -/
theorem login_persist_spec (env : Option Credentials) (st : AuthState)
    (it : Option Credentials) (c : Credentials)
    (h : resolveCredentials env st it = some c) :
    login true env st it = Except.ok (⟨c⟩, ⟨some c⟩) ∧
    login false env st it = Except.ok (⟨c⟩, st) := by
  constructor <;> simp [login, h]

/-- Witness for C7 with credentials resolved from the environment and an empty
credentials file. -/
theorem login_persist_spec_witness :
    login true (some sampleCreds) ⟨none⟩ none =
      Except.ok (⟨sampleCreds⟩, ⟨some sampleCreds⟩) ∧
    login false (some sampleCreds) ⟨none⟩ none =
      Except.ok (⟨sampleCreds⟩, ⟨none⟩) :=
  login_persist_spec (some sampleCreds) ⟨none⟩ none sampleCreds rfl

/-- C9: every item returned by `search_datasets` comes from the catalog's
collections and its `summary()` record contains a "short-name" entry holding the
item's short name. -/
theorem search_datasets_short_name (collections : List Collection)
    (instrument : String) (item : Collection)
    (h : item ∈ search_datasets collections instrument) :
    item ∈ collections ∧
    List.lookup "short-name" (Collection.summary item) = some item.shortName := by
  refine ⟨(List.mem_filter.mp h).1, ?_⟩
  simp [Collection.summary, List.lookup]

/-- Witness for C9 at the sample OCI collection. -/
theorem search_datasets_short_name_witness :
    sampleCollection ∈ [sampleCollection] ∧
    List.lookup "short-name" (Collection.summary sampleCollection) =
      some sampleCollection.shortName :=
  search_datasets_short_name [sampleCollection] "oci" sampleCollection
    (by simp [search_datasets, sampleCollection])

/-- C8: on any successful run of the notebook's pipeline, the session the Search
and Retrieval stages consume is exactly the session the Authenticator produced
(stage order Resolver/Authenticator, then search, then retrieval), and every
stage returns the session it was given untouched — no component holds or mutates
cross-call state beyond the authenticated session. -/
theorem runScript_pipeline (w : World) (r : ScriptResult)
    (h : runScript w = Except.ok r) :
    (∃ st2, login true w.env w.authState w.interactive =
      Except.ok (r.session, st2)) ∧
    (∀ x ∈ r.stageSessions, x = r.session) ∧
    (∀ s c i, (search_datasets_auth s c i).1 = s) ∧
    (∀ s c f, (search_data_auth s c f).1 = s) ∧
    (∀ s d, (open_auth s d).1 = s) ∧
    (∀ s fs2 d lp, (download_auth s fs2 d lp).1 = s) := by
  unfold runScript at h
  cases hl : login true w.env w.authState w.interactive with
  | error e =>
    rw [hl] at h
    exact absurd h (by simp)
  | ok p =>
    obtain ⟨s, st2⟩ := p
    rw [hl] at h
    simp only [search_datasets_auth, search_data_auth, open_auth, download_auth,
      search_data_filterCount1_eq, search_data_filterConstrained_eq,
      search_data_filterL1B_eq] at h
    injection h with h
    subst h
    refine ⟨⟨st2, ?_⟩, ?_, fun _ _ _ => rfl, fun _ _ _ => rfl, fun _ _ => rfl,
      fun _ _ _ _ => rfl⟩
    · rfl
    intro x hx
    simp only [List.mem_cons, List.not_mem_nil, or_false] at hx
    rcases hx with rfl | rfl | rfl | rfl | rfl | rfl <;> rfl

/-- Witness for C8 on the sample world. -/
theorem runScript_pipeline_witness :
    (∀ x ∈ sampleResult.stageSessions, x = sampleResult.session) ∧
    (∀ s d, (open_auth s d).1 = s) :=
  ⟨(runScript_pipeline sampleWorld sampleResult rfl).2.1,
   (runScript_pipeline sampleWorld sampleResult rfl).2.2.2.2.1⟩

/-- C10: with credentials resolvable, the notebook run — which indexes
`results[0]`, `results[1]`, `results[2]` after the constrained search and
`paths[0]` after `open` — completes without an indexing error exactly when the
constrained search returns at least 3 descriptors and the `count=2` Level-1B
search returns at least 1. -/
theorem runNotebook_index_spec (w : World)
    (h : (resolveCredentials w.env w.authState w.interactive).isSome = true) :
    (runNotebook w).isSome = true ↔
      (3 ≤ (w.catalog.filter (matchesGranule filterConstrained)).length ∧
       1 ≤ ((w.catalog.filter (matchesGranule filterL1B)).take 2).length) := by
  obtain ⟨c, hc⟩ := Option.isSome_iff_exists.mp h
  unfold runNotebook
  simp only [login, hc, search_datasets_auth, search_data_filterCount1_eq,
    search_data_filterConstrained_eq, search_data_filterL1B_eq]
  set L2 := w.catalog.filter (matchesGranule filterConstrained) with hL2
  set L3 := (w.catalog.filter (matchesGranule filterL1B)).take 2 with hL3
  rcases h0 : L2.get? 0 with _ | x0
  · have hl0 : L2.length ≤ 0 := List.get?_eq_none.mp h0
    simp only [h0, Option.isSome_none, Bool.false_eq_true, false_iff, not_and]
    intro h3
    omega
  · rcases h1 : L2.get? 1 with _ | x1
    · have hl1 : L2.length ≤ 1 := List.get?_eq_none.mp h1
      simp only [h0, h1, Option.isSome_none, Bool.false_eq_true, false_iff,
        not_and]
      intro h3
      omega
    · rcases h2 : L2.get? 2 with _ | x2
      · have hl2 : L2.length ≤ 2 := List.get?_eq_none.mp h2
        simp only [h0, h1, h2, Option.isSome_none, Bool.false_eq_true,
          false_iff, not_and]
        intro h3
        omega
      · have hl2 : 2 < L2.length := (List.get?_eq_some.mp h2).1
        rcases h3 : L3.get? 0 with _ | y0
        · have hl3 : L3.length ≤ 0 := List.get?_eq_none.mp h3
          have h3o : (open_ L3).get? 0 = none := by
            rw [open_, List.get?_map, h3]
            rfl
          simp only [h0, h1, h2, h3o, Option.isSome_none, Bool.false_eq_true,
            false_iff, not_and]
          intro _ h4
          omega
        · have hl3 : 0 < L3.length := (List.get?_eq_some.mp h3).1
          have h3o : (open_ L3).get? 0 = some ⟨y0⟩ := by
            rw [open_, List.get?_map, h3]
            rfl
          simp only [h0, h1, h2, h3o, Option.isSome_some, true_iff]
          exact ⟨by omega, by omega⟩

/-- Witness for C10 on the sample world, whose catalog is empty. -/
theorem runNotebook_index_spec_witness :
    (runNotebook sampleWorld).isSome = true ↔
      (3 ≤ (sampleWorld.catalog.filter (matchesGranule filterConstrained)).length ∧
       1 ≤ ((sampleWorld.catalog.filter (matchesGranule filterL1B)).take 2).length) :=
  runNotebook_index_spec sampleWorld rfl

end OciDataAccess
